import Mathlib

/-!
Shallow embedding of the risk-prediction core of the student-tracking
repository: `src/predictor.py`, `src/predict.py`, `src/train.py` and
`src/utils.py`.  Python floats are modelled as rationals (reals where a
square root occurs), Python dynamic values as an explicit `PyVal` type,
and Python exceptions as `Except PyErr`.
-/

/-- A dynamically typed Python value as it occurs in student records:
a number, a string, or `None`. -/
inductive PyVal where
  | num (q : ℚ)
  | str (s : String)
  | pynone
deriving DecidableEq

/-- The Python exceptions that the embedded code can raise or observe:
`TypeError` (comparing a non-number with a number), `ValueError`
(failed `float()` conversion), and the I/O / unpickling / sklearn
failures of the model-loading path, collapsed into one constructor. -/
inductive PyErr where
  | typeError
  | valueError
  | ioError
deriving DecidableEq

/-- A student record as `src/predictor.py` accesses it: attributes
`grade_average` and `attendance_rate`, each a dynamic value. -/
structure Student where
  grade_average : PyVal
  attendance_rate : PyVal
deriving DecidableEq

/-- Python's `v < q` for a dynamic left operand and a numeric literal:
numbers compare, a string or `None` raises `TypeError`. -/
def pyLt (v : PyVal) (q : ℚ) : Except PyErr Bool :=
  match v with
  | .num x => .ok (decide (x < q))
  | .str _ => .error .typeError
  | .pynone => .error .typeError

/-- `src/predictor.py:32-41`, `calculate_risk_level(student)`: the
rule-based fallback with thresholds 50/60 (high) and 70/75 (medium).
The nested matches mirror Python's short-circuit `or`: the grade
comparison is evaluated first and a raised `TypeError` propagates. -/
def calculate_risk_level (student : Student) : Except PyErr String :=
  match pyLt student.grade_average 50 with
  | .error e => .error e
  | .ok true => .ok "High Risk"
  | .ok false =>
    match pyLt student.attendance_rate 60 with
    | .error e => .error e
    | .ok true => .ok "High Risk"
    | .ok false =>
      match pyLt student.grade_average 70 with
      | .error e => .error e
      | .ok true => .ok "Medium Risk"
      | .ok false =>
        match pyLt student.attendance_rate 75 with
        | .error e => .error e
        | .ok true => .ok "Medium Risk"
        | .ok false => .ok "Low Risk"

/-- `src/predictor.py:16-20`: the feature list built for the classifier,
`[student_data.grade_average, student_data.attendance_rate]` — exactly
two entries (the source comment reads "Add other features as needed"). -/
def features_of (s : Student) : List PyVal :=
  [s.grade_average, s.attendance_rate]

/-- `src/predictor.py:25-26`: `risk_levels = {0: 'Low Risk', 1: 'Medium
Risk', 2: 'High Risk'}; risk_levels.get(prediction, 'Unknown Risk')`. -/
def risk_levels_get (p : ℤ) : String :=
  if p = 0 then "Low Risk"
  else if p = 1 then "Medium Risk"
  else if p = 2 then "High Risk"
  else "Unknown Risk"

/-- `src/predictor.py:5-30`, `predict_student_risk(student_data)`.
The `try` block (opening `data/trained_model.pkl`, unpickling, and
`model.predict([features])[0]`) is external I/O plus sklearn; its
outcome is passed in as `modelOutcome`: `.ok p` when the block produces
the class index `p`, `.error e` when any exception is raised inside the
`try`.  On success the index is mapped through `risk_levels_get`; on
failure the handler calls `calculate_risk_level`, which sits outside
any `try`, so an exception it raises propagates to the caller. -/
def predict_student_risk (s : Student) (modelOutcome : Except PyErr ℤ) :
    Except PyErr String :=
  match modelOutcome with
  | .ok p => .ok (risk_levels_get p)
  | .error _ => calculate_risk_level s

/-- `src/predictor.py:43-53`, `update_all_student_risks()`: loop over
all students, assign `student.risk_level = predict_student_risk(student)`,
then `db.session.commit()` once after the loop.  Each student is paired
with the outcome of its model-path attempt.  A raised exception aborts
the loop before the commit, so nothing is persisted: this is the
`.error` result.  On success the committed state is the list of
(student, risk_level) assignments. -/
def update_all_student_risks (students : List (Student × Except PyErr ℤ)) :
    Except PyErr (List (Student × String)) :=
  match students with
  | [] => .ok []
  | (s, m) :: rest =>
    match predict_student_risk s m with
    | .error e => .error e
    | .ok r =>
      match update_all_student_risks rest with
      | .error e => .error e
      | .ok tail => .ok ((s, r) :: tail)

/-- Digits to a natural number, most significant first; `none` on a
non-digit. -/
def natOfDigits (cs : List Char) : Option ℕ :=
  cs.foldl
    (fun acc c =>
      match acc with
      | none => none
      | some n => if c.isDigit then some (10 * n + (c.toNat - 48)) else none)
    (some 0)

/-- The unsigned part of Python's `float()` string conversion restricted
to plain decimal literals (`"55"`, `"5."`, `".5"`, `"12.75"`); exponents,
`inf`/`nan` and underscores are outside the inputs this repository
handles and are mapped to a failed conversion. -/
def parseUnsigned (cs : List Char) : Option ℚ :=
  let ip := cs.takeWhile (fun c => c ≠ '.')
  match cs.dropWhile (fun c => c ≠ '.') with
  | [] =>
    if ip.isEmpty then none
    else (natOfDigits ip).map (fun n => (n : ℚ))
  | '.' :: fp =>
    if ip.isEmpty && fp.isEmpty then none
    else
      match natOfDigits ip, natOfDigits fp with
      | some n, some f => some ((n : ℚ) + (f : ℚ) / (10 ^ fp.length))
      | _, _ => none
  | _ :: _ => none

/-- Python's `float(v)` on a dynamic value: a number converts to itself,
a string is parsed as a decimal literal (`ValueError` on failure),
`None` raises `TypeError`.  The result is `none` exactly when Python
raises `ValueError` or `TypeError`. -/
def pyFloat (v : PyVal) : Option ℚ :=
  match v with
  | .num q => some q
  | .str s => parseUnsigned s.trim.toList |>.orElse (fun _ =>
      match s.trim.toList with
      | '-' :: rest => (parseUnsigned rest).map Neg.neg
      | '+' :: rest => parseUnsigned rest
      | _ => none)
  | .pynone => none

/-- `src/predict.py:4-34`, `predict_student_risk(student_data)`: the
rule-based predictor over a dict input, modelled as a lookup function.
`student_data.get('grade', 0)` / `.get('attendance', 0)` default to `0`;
each value is passed through `float()` with `ValueError`/`TypeError`
caught and the value replaced by `0`; then the threshold rules 60/70
(high) and 75/80 (medium) decide the label.  The body never raises for
a dict input, so the outer handler returning "Unknown Risk" is dead
code and the function is total. -/
def predict_student_risk_py (student_data : String → Option PyVal) : String :=
  let grade := (student_data "grade").getD (.num 0)
  let attendance := (student_data "attendance").getD (.num 0)
  let g := (pyFloat grade).getD 0
  let a := (pyFloat attendance).getD 0
  if g < 60 ∨ a < 70 then "High Risk"
  else if g < 75 ∨ a < 80 then "Medium Risk"
  else "Low Risk"

/-- The three canonical risk labels. -/
def threeLabels : List String := ["Low Risk", "Medium Risk", "High Risk"]

/-- `np.std` of a list of scores (population standard deviation,
`ddof=0`), as used by `calculate_academic_metrics`. -/
noncomputable def npStd (grades : List ℚ) : ℝ :=
  let n : ℝ := grades.length
  let mean : ℝ := (grades.map (fun g => (g : ℝ))).sum / n
  Real.sqrt ((grades.map (fun g => ((g : ℝ) - mean) ^ 2)).sum / n)

/-- `np.min` of a non-empty list, folded from the head. -/
def listMin (g : ℚ) (gs : List ℚ) : ℚ := gs.foldl min g

/-- `np.max` of a non-empty list, folded from the head. -/
def listMax (g : ℚ) (gs : List ℚ) : ℚ := gs.foldl max g

/-- `src/utils.py:14-47`, `calculate_academic_metrics(grades, attendance)`.
The returned dict is modelled as an association list in the source's
insertion order.  An empty `grades` list short-circuits to a five-key
dict of zeros (regardless of `attendance`); otherwise seven keys are
produced, with `attendance_rate = float(np.mean(attendance_array) * 100)`
when the attendance array is non-empty and `0` otherwise, and
`completion_rate` fixed at `100.0`. -/
noncomputable def calculate_academic_metrics (grades : List ℚ)
    (attendance : List Bool) : List (String × ℝ) :=
  match grades with
  | [] =>
    [("grade_average", 0), ("grade_std", 0), ("attendance_rate", 0),
     ("total_assignments", 0), ("completion_rate", 0)]
  | g :: gs =>
    [("grade_average", ((g :: gs).map (fun x => (x : ℝ))).sum / (g :: gs).length),
     ("grade_std", npStd (g :: gs)),
     ("grade_min", (listMin g gs : ℝ)),
     ("grade_max", (listMax g gs : ℝ)),
     ("attendance_rate",
       if 0 < attendance.length then
         ((attendance.countP id : ℝ) / attendance.length) * 100
       else 0),
     ("total_assignments", ((g :: gs).length : ℝ)),
     ("completion_rate", 100)]

/-- Result of a training run, as reported by `train_model`. -/
inductive TrainOutcome where
  | noTrainingData
  | trained
deriving DecidableEq

/-- The persisted model artifact, kept abstract (a fitted sklearn
pipeline is external to the embedding). -/
structure Artifact where
  modelId : ℕ
deriving DecidableEq

/-- `src/train.py:25-87`, `train_model()`.  The prepared data `(X, y,
feature_names)` is passed in (its producer `prepare_training_data`
is referenced by `train.py` but absent from the sources), with the
abstract result `fitted` of the sklearn fit and the current artifact
`slot` on disk.  The guard `if X.shape[0] == 0` (`src/train.py:37-39`)
prints "No training data available." and returns before any
`joblib.dump`, leaving the slot untouched; otherwise the fitted model
is dumped into the slot. -/
def train_model (X : List (List ℚ)) (y : List ℤ) (featureNames : List String)
    (fitted : Artifact) (slot : Option Artifact) :
    TrainOutcome × Option Artifact :=
  if X.length = 0 then (TrainOutcome.noTrainingData, slot)
  else (TrainOutcome.trained, some fitted)

/-- Modelled from the spec: the training-label scheme of
`prepare_training_data`, which `src/train.py` and `test_predictor.py`
reference but which is missing from the sources.  Spec §4.4: "label = 1
(High Risk) if grade_average < 60 OR attendance_rate < 75, else 0 (Low
Risk)". -/
def training_label (g a : ℚ) : ℤ :=
  if g < 60 ∨ a < 75 then 1 else 0

/-- C1: under the spec's default thresholds (T1=60, T2=70, T3=75, T4=80,
implemented by `src/predict.py`), the input grade=55, attendance=65
yields "High Risk" from the rule-based fallback. -/
theorem c1_default_thresholds_55_65_high_risk :
    predict_student_risk_py
      (fun k => if k = "grade" then some (.num 55)
        else if k = "attendance" then some (.num 65) else none) =
      "High Risk" := by
  decide

/-- C2: the rule-based fallback is total and pure on numeric inputs:
`calculate_risk_level` returns one of the three canonical labels for
every numeric (grade, attendance) pair, `src/predict.py`'s rule-based
predictor returns one of the three canonical labels for every dict
input, and two dict inputs that agree on the 'grade' and 'attendance'
keys yield the same label. -/
theorem c2_fallback_total_and_pure (g a : ℚ) (d d' : String → Option PyVal)
    (hg : d "grade" = d' "grade") (ha : d "attendance" = d' "attendance") :
    (∃ l, calculate_risk_level ⟨.num g, .num a⟩ = .ok l ∧ l ∈ threeLabels) ∧
    predict_student_risk_py d ∈ threeLabels ∧
    predict_student_risk_py d = predict_student_risk_py d' := by
  refine ⟨?_, ?_, ?_⟩
  · by_cases h1 : g < 50 <;> by_cases h2 : a < 60 <;>
      by_cases h3 : g < 70 <;> by_cases h4 : a < 75 <;>
      simp [calculate_risk_level, pyLt, h1, h2, h3, h4, threeLabels]
  · simp only [predict_student_risk_py, threeLabels]
    split
    · simp
    · split <;> simp
  · simp only [predict_student_risk_py]
    rw [hg, ha]

/-- C2 witness: the theorem applied at grade=70, attendance=80 and the
empty dict. -/
theorem c2_fallback_total_and_pure_witness :
    (∃ l, calculate_risk_level ⟨.num 70, .num 80⟩ = .ok l ∧ l ∈ threeLabels) ∧
    predict_student_risk_py (fun _ => none) ∈ threeLabels ∧
    predict_student_risk_py (fun _ => none) =
      predict_student_risk_py (fun _ => none) :=
  c2_fallback_total_and_pure 70 80 (fun _ => none) (fun _ => none) rfl rfl

/-- C3: evaluation at the failing input.  A student whose
`grade_average` is the non-numeric string "abc" (so the model path
raises and the handler falls back) makes `predict_student_risk`
propagate a `TypeError` out of `calculate_risk_level` instead of
returning a label: the fallback call sits outside any `try`. -/
theorem c3_nonnumeric_grade_raises :
    predict_student_risk ⟨.str "abc", .num 90⟩ (.error .ioError) =
      .error .typeError := rfl

/-- C4: the label mapping of `src/predictor.py` is total on the class
indices {0,1,2} and lands exactly on the three canonical strings, the
model-based path of `predict_student_risk` returns precisely the mapped
label, and the spec-modelled training labels (the only class indices a
fitted model can emit) lie in {0,1} ⊆ {0,1,2}, so no fourth value is
returned from the model-based path. -/
theorem c4_label_mapping_total (s : Student) (p : ℤ)
    (h : p = 0 ∨ p = 1 ∨ p = 2) :
    risk_levels_get 0 = "Low Risk" ∧ risk_levels_get 1 = "Medium Risk" ∧
    risk_levels_get 2 = "High Risk" ∧
    risk_levels_get p ∈ threeLabels ∧
    predict_student_risk s (.ok p) = .ok (risk_levels_get p) ∧
    (∀ g a : ℚ, training_label g a = 0 ∨ training_label g a = 1) := by
  have htl : ∀ g a : ℚ, training_label g a = 0 ∨ training_label g a = 1 := by
    intro g a
    unfold training_label
    split
    · exact Or.inr rfl
    · exact Or.inl rfl
  rcases h with h | h | h <;> subst h <;>
    exact ⟨rfl, rfl, rfl, by decide, rfl, htl⟩

/-- C4 witness: the theorem applied at class index 1. -/
theorem c4_label_mapping_total_witness :
    risk_levels_get 0 = "Low Risk" ∧ risk_levels_get 1 = "Medium Risk" ∧
    risk_levels_get 2 = "High Risk" ∧
    risk_levels_get 1 ∈ threeLabels ∧
    predict_student_risk ⟨.num 0, .num 0⟩ (.ok 1) = .ok (risk_levels_get 1) ∧
    (∀ g a : ℚ, training_label g a = 0 ∨ training_label g a = 1) :=
  c4_label_mapping_total ⟨.num 0, .num 0⟩ 1 (Or.inr (Or.inl rfl))

/-- C5: evaluation at the failing input.  For a student with grade 85
and attendance 95 whose model path fails, `predict_student_risk`
returns the bare string "Low Risk": the result is a plain label, with
no probability and no feature dict attached — the repository's own
`test_predictor.py` and `main_window.py` expect a dict with
`risk_level`, `probability` and `features` keys. -/
theorem c5_result_is_bare_label :
    predict_student_risk ⟨.num 85, .num 95⟩ (.error .ioError) =
      .ok "Low Risk" := rfl

/-- C6: evaluation at the failing input.  The feature list that
`src/predictor.py` feeds to the classifier for a student with grade 80
and attendance 90 is `[80, 90]`: it has exactly 2 entries, not the 6
the claim (and the repository's own `test_predictor.py`) requires. -/
theorem c6_feature_vector_has_two_entries :
    features_of ⟨.num 80, .num 90⟩ = [.num 80, .num 90] ∧
    (features_of ⟨.num 80, .num 90⟩).length = 2 ∧
    (features_of ⟨.num 80, .num 90⟩).length ≠ 6 := by
  decide

/-- C8: an empty dataset (zero samples) makes `train_model` return the
"no training data" outcome without touching the persisted artifact
slot: the guard at `src/train.py:37-39` returns before any
`joblib.dump`. -/
theorem c8_empty_dataset_leaves_artifact :
    ∀ (y : List ℤ) (fn : List String) (fitted : Artifact)
      (slot : Option Artifact),
      train_model [] y fn fitted slot = (TrainOutcome.noTrainingData, slot) := by
  intro y fn fitted slot
  rfl

/-- C7 counterexample: a batch of two students where the first one's
prediction raises (non-numeric grade, model path failed) and the second
one's would succeed.  `update_all_student_risks` propagates the
exception: the loop aborts before `db.session.commit()`, so the second
student is not updated or persisted, refuting the isolation property at
this concrete input. -/
theorem c7_single_failure_aborts_batch :
    update_all_student_risks
      [(⟨.str "abc", .num 90⟩, Except.error .ioError),
       (⟨.num 90, .num 95⟩, Except.ok 0)] =
      .error .typeError := rfl

/-- C7 (amended): the batch updater is all-or-nothing, not isolating.
If no student's prediction raises, every student receives its predicted
risk level and the whole batch is committed; a single raised exception
aborts the batch with nothing persisted (see the counterexample). -/
theorem c7_batch_all_or_nothing (students : List (Student × Except PyErr ℤ))
    (h : ∀ x ∈ students, ∃ l, predict_student_risk x.1 x.2 = Except.ok l) :
    ∃ ls, update_all_student_risks students = .ok ls ∧
      List.Forall₂
        (fun x r => r.1 = x.1 ∧ predict_student_risk x.1 x.2 = Except.ok r.2)
        students ls := by
  induction students with
  | nil => exact ⟨[], rfl, List.Forall₂.nil⟩
  | cons x rest ih =>
    obtain ⟨s, m⟩ := x
    obtain ⟨l, hl⟩ := h _ (List.mem_cons_self _ _)
    obtain ⟨ls, hls, hfa⟩ := ih (fun y hy => h y (List.mem_cons_of_mem _ hy))
    refine ⟨(s, l) :: ls, ?_, List.Forall₂.cons ⟨rfl, hl⟩ hfa⟩
    simp only [update_all_student_risks, hl, hls]

/-- C7 witness: the amended theorem applied to a one-student batch whose
model path fails but whose fallback succeeds with "Low Risk". -/
theorem c7_batch_all_or_nothing_witness :
    ∃ ls, update_all_student_risks
        [(⟨.num 80, .num 90⟩, Except.error .ioError)] = .ok ls ∧
      List.Forall₂
        (fun x r => r.1 = x.1 ∧ predict_student_risk x.1 x.2 = Except.ok r.2)
        [(⟨.num 80, .num 90⟩, Except.error .ioError)] ls :=
  c7_batch_all_or_nothing [(⟨.num 80, .num 90⟩, Except.error .ioError)]
    (by
      intro x hx
      simp only [List.mem_singleton] at hx
      subst hx
      exact ⟨"Low Risk", rfl⟩)

/-- C9 counterexample: with an empty grades list and the non-empty
attendance history `[present]`, `calculate_academic_metrics` reports
`attendance_rate = 0`, not the actual rate 100 = 1/1 × 100 the claim
requires: the empty-grades short-circuit at `src/utils.py:25-32` zeroes
the attendance rate regardless of the attendance records. -/
theorem c9_empty_grades_zero_attendance_rate :
    List.lookup "attendance_rate" (calculate_academic_metrics [] [true]) =
      some 0 ∧ (0 : ℝ) ≠ ((1 : ℝ) / 1) * 100 := by
  constructor
  · rfl
  · norm_num

/-- C9 (amended): the attendance rate follows the claimed formula only
when the grades list is non-empty — then it is present_count /
total_count × 100 over the attendance records, and 0 when there are
none; when the grades list is empty it is 0 regardless of the
attendance history. -/
theorem c9_attendance_rate_formula (gs : List ℚ) (att : List Bool) :
    (gs = [] →
      List.lookup "attendance_rate" (calculate_academic_metrics gs att) =
        some 0) ∧
    (gs ≠ [] →
      List.lookup "attendance_rate" (calculate_academic_metrics gs att) =
        some (if 0 < att.length then
          ((att.countP id : ℝ) / att.length) * 100 else 0)) := by
  constructor
  · rintro rfl
    rfl
  · intro h
    match gs, h with
    | g :: t, _ => rfl

/-- C9 witness: the amended theorem applied at one grade and the
attendance history `[present, absent]`, whose rate is 1/2 × 100. -/
theorem c9_attendance_rate_formula_witness :
    List.lookup "attendance_rate" (calculate_academic_metrics [50] [true, false]) =
      some (if 0 < ([true, false] : List Bool).length then
        ((([true, false] : List Bool).countP id : ℝ) /
          ([true, false] : List Bool).length) * 100 else 0) :=
  (c9_attendance_rate_formula [50] [true, false]).2 (by simp)

/-- C10: `calculate_academic_metrics` returns a five-key dict of zeros
(`grade_average`, `grade_std`, `attendance_rate`, `total_assignments`,
`completion_rate`, with `completion_rate = 0`) for an empty grades
list, and for a non-empty grades list a seven-key dict that adds
`grade_min` and `grade_max`, with `completion_rate` fixed at 100.0. -/
theorem c10_metrics_key_sets (gs : List ℚ) (att : List Bool) :
    (gs = [] →
      calculate_academic_metrics gs att =
        [("grade_average", 0), ("grade_std", 0), ("attendance_rate", 0),
         ("total_assignments", 0), ("completion_rate", 0)]) ∧
    (gs ≠ [] →
      (calculate_academic_metrics gs att).map Prod.fst =
        ["grade_average", "grade_std", "grade_min", "grade_max",
         "attendance_rate", "total_assignments", "completion_rate"] ∧
      List.lookup "completion_rate" (calculate_academic_metrics gs att) =
        some 100) := by
  constructor
  · rintro rfl
    rfl
  · intro h
    match gs, h with
    | g :: t, _ => exact ⟨rfl, rfl⟩

/-- C10 witness: the theorem applied at the empty history and at the
one-grade history `[80]`. -/
theorem c10_metrics_key_sets_witness :
    calculate_academic_metrics [] [] =
      [("grade_average", 0), ("grade_std", 0), ("attendance_rate", 0),
       ("total_assignments", 0), ("completion_rate", 0)] ∧
    ((calculate_academic_metrics [80] []).map Prod.fst =
      ["grade_average", "grade_std", "grade_min", "grade_max",
       "attendance_rate", "total_assignments", "completion_rate"] ∧
      List.lookup "completion_rate" (calculate_academic_metrics [80] []) =
        some 100) :=
  ⟨(c10_metrics_key_sets [] []).1 rfl,
   (c10_metrics_key_sets [80] []).2 (by simp)⟩
